import Mathlib

set_option maxRecDepth 8192

/-!
A shallow embedding of src/proxy/src/main.rs of the shredstream-proxy
repository, with proofs about its startup validation, thread wiring,
shutdown coordination, heartbeat parameters and destination resolution.
Name resolution (DNS) is abstracted as an explicit resolver function;
everything else is translated directly from the source.
-/

/-- A resolved UDP socket address (std::net::SocketAddr), reduced to its
ip rendered as a string together with its port. -/
structure SocketAddr where
  ip : String
  port : Nat
deriving DecidableEq

/-- Abstraction of operating-system name resolution as used by
to_socket_addrs inside resolve_hostname_port (main.rs line 153):
none models an io::Error raised by the resolver, some gives the
(possibly empty) list of resolved addresses. -/
abbrev Resolver := String → Option (List SocketAddr)

/-- The CommonArgs struct (main.rs lines 85-128). Ip addresses are kept as
strings; dest_ip_ports pairs each resolved address with the original
hostname string exactly as the source does. -/
structure CommonArgs where
  src_bind_addr : String
  src_bind_port : Nat
  dest_ip_ports : List (SocketAddr × String)
  endpoint_discovery_url : Option String
  discovered_endpoints_port : Option Nat
  metrics_report_interval_ms : Nat
  debug_trace_shred : Bool
  public_ip : Option String
  num_threads : Option Nat
deriving DecidableEq

/-- The ShredstreamArgs struct (main.rs lines 61-83). -/
structure ShredstreamArgs where
  block_engine_url : String
  auth_url : Option String
  auth_keypair : String
  desired_regions : List String
  common_args : CommonArgs
deriving DecidableEq

/-- The ProxySubcommands enum after the file-config variant has been folded
into Shredstream (main.rs lines 203-213 replace ShredstreamFileConfig by a
Shredstream value before the rest of main runs, so only these two variants
reach the validation and thread-spawning code). -/
inductive ProxySubcommands where
  | Shredstream (a : ShredstreamArgs)
  | ForwardOnly (c : CommonArgs)
deriving DecidableEq

/-- The CommonConfig struct deserialized from a toml file
(main.rs lines 391-411); destinations are still raw strings here. -/
structure CommonConfig where
  src_bind_addr : String
  src_bind_port : Nat
  dest_ip_ports : List String
  endpoint_discovery_url : Option String
  discovered_endpoints_port : Option Nat
  metrics_report_interval_ms : Nat
  debug_trace_shred : Bool
  public_ip : Option String
  num_threads : Option Nat
deriving DecidableEq

/-- The ShredstreamConfig struct deserialized from a toml file
(main.rs lines 381-389). -/
structure ShredstreamConfig where
  block_engine_url : String
  auth_url : Option String
  auth_keypair : String
  desired_regions : List String
  common : CommonConfig
deriving DecidableEq

/-- resolve_hostname_port (main.rs lines 152-161): run name resolution,
take the first address and pair it with the original input string;
a resolver error or an empty address list is an error. -/
def resolve_hostname_port (resolver : Resolver) (hostname_port : String) :
    Except String (SocketAddr × String) :=
  match resolver hostname_port with
  | none => Except.error ("io error resolving " ++ hostname_port)
  | some addrs =>
    match addrs with
    | [] => Except.error ("Could not find destination " ++ hostname_port)
    | a :: _ => Except.ok (a, hostname_port)

/-- The collect step of TryFrom of CommonConfig (main.rs lines 447-451):
resolve every destination left to right; the first error aborts the whole
conversion, exactly like collecting into Result of Vec. The same shape
models clap applying the value_parser to each comma separated CLI value. -/
def resolveAll (resolver : Resolver) (dests : List String) :
    Except String (List (SocketAddr × String)) :=
  match dests with
  | [] => Except.ok []
  | d :: rest =>
    match resolve_hostname_port resolver d with
    | Except.error e => Except.error e
    | Except.ok p =>
      match resolveAll resolver rest with
      | Except.error e => Except.error e
      | Except.ok ps => Except.ok (p :: ps)

/-- TryFrom of CommonConfig for CommonArgs (main.rs lines 440-460). -/
def commonConfigTryFrom (resolver : Resolver) (config : CommonConfig) :
    Except String CommonArgs :=
  match resolveAll resolver config.dest_ip_ports with
  | Except.error e => Except.error e
  | Except.ok dests =>
    Except.ok
      { src_bind_addr := config.src_bind_addr
        src_bind_port := config.src_bind_port
        dest_ip_ports := dests
        endpoint_discovery_url := config.endpoint_discovery_url
        discovered_endpoints_port := config.discovered_endpoints_port
        metrics_report_interval_ms := config.metrics_report_interval_ms
        debug_trace_shred := config.debug_trace_shred
        public_ip := config.public_ip
        num_threads := config.num_threads }

/-- TryFrom of ShredstreamConfig for ShredstreamArgs (main.rs lines 426-438).
Note that desired_regions is copied through without any emptiness check. -/
def shredstreamConfigTryFrom (resolver : Resolver) (config : ShredstreamConfig) :
    Except String ShredstreamArgs :=
  match commonConfigTryFrom resolver config.common with
  | Except.error e => Except.error e
  | Except.ok common =>
    Except.ok
      { block_engine_url := config.block_engine_url
        auth_url := config.auth_url
        auth_keypair := config.auth_keypair
        desired_regions := config.desired_regions
        common_args := common }

/-- Splitting one raw argument value on commas, as clap does for the
value_delimiter attribute on desired_regions (main.rs line 78). Splitting
always produces at least one element (the empty string splits to a single
empty element). -/
def splitOnComma : List Char → List (List Char)
  | [] => [[]]
  | c :: rest =>
    let r := splitOnComma rest
    if c = ',' then [] :: r
    else
      match r with
      | [] => [[c]]
      | g :: gs => (c :: g) :: gs

/-- The clap behaviour for desired_regions (main.rs line 78): the attribute
required(true) makes a missing argument a parse error that terminates the
process before main's body runs, and a supplied raw value is split on
commas. -/
def cliParseDesiredRegions : Option (List Char) → Except String (List (List Char))
  | none => Except.error "the required argument desired-regions was not provided"
  | some raw => Except.ok (splitOnComma raw)

/-- The two startup validation failures in main (main.rs lines 223-233).
In the source each is a panic that terminates the process with a non-zero
exit code before any worker thread is spawned. -/
inductive StartupError where
  | invalidDiscoveryArgs
  | noDestinations
deriving DecidableEq

/-- The two validation checks at the top of main (main.rs lines 223-233),
transcribed condition for condition. -/
def validateArgsChecks (args : CommonArgs) : Except StartupError Unit :=
  if (args.endpoint_discovery_url.isNone && args.discovered_endpoints_port.isSome)
      || (args.endpoint_discovery_url.isSome && args.discovered_endpoints_port.isNone) then
    Except.error StartupError.invalidDiscoveryArgs
  else if args.endpoint_discovery_url.isNone && args.discovered_endpoints_port.isNone
      && args.dest_ip_ports.isEmpty then
    Except.error StartupError.noDestinations
  else
    Except.ok ()

/-- use_discovery_service (main.rs lines 277-278). -/
def useDiscoveryService (args : CommonArgs) : Bool :=
  args.endpoint_discovery_url.isSome && args.discovered_endpoints_port.isSome

/-- Whether the subcommand is the shredstream mode (main.rs line 255). -/
def isShredstreamMode : ProxySubcommands → Bool
  | ProxySubcommands.Shredstream _ => true
  | ProxySubcommands.ForwardOnly _ => false

/-- The common args extracted from the subcommand (main.rs lines 217-221). -/
def commonArgsOf : ProxySubcommands → CommonArgs
  | ProxySubcommands.Shredstream a => a.common_args
  | ProxySubcommands.ForwardOnly c => c

/-- The observable startup actions of main after validation has passed,
in program order (main.rs lines 235-323). The destination snapshot step
carries the published list of socket addresses. -/
inductive StartupStep where
  | installShutdownNotifier
  | installPanicHook
  | startHeartbeat
  | installDestinationSnapshot (snapshot : List SocketAddr)
  | createDeduper
  | startForwarderThreads
  | startReportMetricsThread
  | startAccessoryThread
  | startDestinationRefresher
deriving DecidableEq

/-- The ordered sequence of startup actions main performs once validation
has passed (main.rs lines 235-323): shutdown notifier (line 236), panic
hook (line 241), heartbeat only in shredstream mode (lines 255-259), the
initial destination snapshot built by mapping the resolved address out of
each static destination pair (lines 262-267), the deduper (line 271),
the forwarder threads (line 279), the stats report thread (line 294), the
metrics accessory thread (line 305), and the destination refresher only
when the discovery service is configured (lines 313-323). -/
def startedSteps (sub : ProxySubcommands) : List StartupStep :=
  [StartupStep.installShutdownNotifier, StartupStep.installPanicHook]
  ++ (cond (isShredstreamMode sub) [StartupStep.startHeartbeat] [])
  ++ [StartupStep.installDestinationSnapshot
        ((commonArgsOf sub).dest_ip_ports.map Prod.fst),
      StartupStep.createDeduper,
      StartupStep.startForwarderThreads,
      StartupStep.startReportMetricsThread,
      StartupStep.startAccessoryThread]
  ++ (cond (useDiscoveryService (commonArgsOf sub))
        [StartupStep.startDestinationRefresher] [])

/-- main's startup (main.rs lines 198-323): the validation checks run
first (lines 223-233) and a failure panics before any of the startup steps
happens; otherwise the ordered step list is performed. -/
def mainStartupSteps (sub : ProxySubcommands) : Except StartupError (List StartupStep) :=
  match validateArgsChecks (commonArgsOf sub) with
  | Except.error e => Except.error e
  | Except.ok _ => Except.ok (startedSteps sub)

/-- The rust runtime terminates a process whose panic unwinds out of main
with the non-zero exit code 101; the validation failures of main.rs lines
223-233 and any worker panic propagated through join (line 331) end there. -/
def panicExitCode : Nat := 101

/-- The arguments start_heartbeat passes to heartbeat_loop_thread. -/
structure HeartbeatParams where
  block_engine_url : String
  auth_url : String
  desired_regions : List String
  advertised : SocketAddr
deriving DecidableEq

/-- start_heartbeat (main.rs lines 346-379): the heartbeat loop receives
the block engine url, the auth url with its fallback to the block engine
url (line 364), the region list, and the advertised socket address built
from the public ip override (or the ip fetched from the external service)
and the configured src_bind_port verbatim (lines 367-372). Keypair file
reading is omitted as io that does not affect these values. -/
def start_heartbeat (fetchedPublicIp : String) (args : ShredstreamArgs) :
    HeartbeatParams :=
  { block_engine_url := args.block_engine_url
    auth_url := args.auth_url.getD args.block_engine_url
    desired_regions := args.desired_regions
    advertised :=
      { ip := args.common_args.public_ip.getD fetchedPublicIp
        port := args.common_args.src_bind_port } }

/-- The shared-state actions relevant to shutdown coordination. -/
inductive RuntimeAction where
  | setFlag (b : Bool)
  | sendShutdownMsg
  | logErrorMsg
  | sleepOneSecond
  | invokePriorPanicHook
deriving DecidableEq

/-- The body of the signal-handler thread of shutdown_notifier per received
signal (main.rs lines 183-192): store true into the exit flag, then send
the shutdown message 256 times (one per consuming thread; the channel is
bounded at 256, and send only errors once every receiver is gone). -/
def signalHandlerTrace : List RuntimeAction :=
  RuntimeAction.setFlag true :: List.replicate 256 RuntimeAction.sendShutdownMsg

/-- The body of the installed panic hook (main.rs lines 241-248): store
true into the exit flag, send one shutdown message, log, sleep one second,
then invoke the previously installed default hook so the process dies. -/
def panicHookTrace : List RuntimeAction :=
  [RuntimeAction.setFlag true, RuntimeAction.sendShutdownMsg,
   RuntimeAction.logErrorMsg, RuntimeAction.sleepOneSecond,
   RuntimeAction.invokePriorPanicHook]

/-- Modelled from the spec: forwarder.rs is part of this repository but not
under src, so the number of join handles returned by
start_forwarder_threads is taken from spec section 4.D, which says the
thread count defaults to min(cpu_count, 4) and is capped by the configured
num_threads, with paired ingress and forward pools (sections 4.D and 4.E),
hence two handles per thread slot. -/
def numForwarderHandles (cpuCount : Nat) (numThreads : Option Nat) : Nat :=
  2 * min (min cpuCount 4) (numThreads.getD (min cpuCount 4))

/-- The number of entries of thread_handles joined by main
(main.rs lines 254-332): the heartbeat handle in shredstream mode
(line 258), the forwarder handles (line 292), the stats report thread
(line 303), the metrics accessory thread (line 312), and the destination
refresher when discovery is configured (line 322). -/
def totalWorkerThreads (sub : ProxySubcommands) (cpuCount : Nat) : Nat :=
  (cond (isShredstreamMode sub) 1 0)
  + numForwarderHandles cpuCount (commonArgsOf sub).num_threads
  + 1 + 1
  + (cond (useDiscoveryService (commonArgsOf sub)) 1 0)

/-- A typical static-destination configuration used as a concrete input. -/
def baseCommonArgs : CommonArgs :=
  { src_bind_addr := "0.0.0.0"
    src_bind_port := 20000
    dest_ip_ports := [({ ip := "127.0.0.1", port := 8001 }, "127.0.0.1:8001")]
    endpoint_discovery_url := none
    discovered_endpoints_port := none
    metrics_report_interval_ms := 15000
    debug_trace_shred := false
    public_ip := none
    num_threads := none }

/-- A concrete shredstream configuration requesting an ephemeral listening
port via src_bind_port zero. -/
def argsC1 : ShredstreamArgs :=
  { block_engine_url := "https://ams.example.block-engine"
    auth_url := none
    auth_keypair := "keypair.json"
    desired_regions := ["amsterdam"]
    common_args :=
      { baseCommonArgs with src_bind_port := 0, public_ip := some "203.0.113.7" } }

/-- A resolver knowing exactly the one static destination of configC2. -/
def resolverC2 : Resolver := fun s =>
  if s = "127.0.0.1:8001" then some [{ ip := "127.0.0.1", port := 8001 }] else none

/-- A concrete file configuration whose desired_regions list is empty but
which names one resolvable static destination. -/
def configC2 : ShredstreamConfig :=
  { block_engine_url := "https://ams.example.block-engine"
    auth_url := none
    auth_keypair := "keypair.json"
    desired_regions := []
    common :=
      { src_bind_addr := "0.0.0.0"
        src_bind_port := 20000
        dest_ip_ports := ["127.0.0.1:8001"]
        endpoint_discovery_url := none
        discovered_endpoints_port := none
        metrics_report_interval_ms := 15000
        debug_trace_shred := false
        public_ip := none
        num_threads := none } }

/-- The arguments the conversion of configC2 produces. -/
def argsC2 : ShredstreamArgs :=
  { block_engine_url := "https://ams.example.block-engine"
    auth_url := none
    auth_keypair := "keypair.json"
    desired_regions := []
    common_args := baseCommonArgs }

/-- A forward-only subcommand with one static destination and no discovery
service. -/
def subC3 : ProxySubcommands := ProxySubcommands.ForwardOnly baseCommonArgs

/-- A shredstream subcommand with a complete discovery configuration, used
to instantiate the thread-wiring theorem. -/
def subC3w : ProxySubcommands :=
  ProxySubcommands.Shredstream
    { block_engine_url := "https://ams.example.block-engine"
      auth_url := none
      auth_keypair := "keypair.json"
      desired_regions := ["amsterdam"]
      common_args :=
        { baseCommonArgs with
            endpoint_discovery_url := some "https://discovery.example/ips"
            discovered_endpoints_port := some 8001 } }

/-- A configuration supplying a discovery url without the discovery port. -/
def subC4 : ProxySubcommands :=
  ProxySubcommands.ForwardOnly
    { baseCommonArgs with endpoint_discovery_url := some "https://discovery.example/ips" }

/-- A configuration with no static destination and no discovery service. -/
def subC5 : ProxySubcommands :=
  ProxySubcommands.ForwardOnly { baseCommonArgs with dest_ip_ports := [] }

/-- A forward-only configuration used to count worker threads. -/
def subC7 : ProxySubcommands := ProxySubcommands.ForwardOnly baseCommonArgs

/-- A shredstream configuration with auth_url left unset. -/
def argsC8 : ShredstreamArgs :=
  { block_engine_url := "https://ams.example.block-engine"
    auth_url := none
    auth_keypair := "keypair.json"
    desired_regions := ["amsterdam"]
    common_args := baseCommonArgs }

/-- A forward-only configuration with two static destinations, used to
instantiate the initial-snapshot theorem. -/
def subC9 : ProxySubcommands :=
  ProxySubcommands.ForwardOnly
    { baseCommonArgs with
        dest_ip_ports :=
          [({ ip := "127.0.0.1", port := 8001 }, "127.0.0.1:8001"),
           ({ ip := "10.0.0.1", port := 8002 }, "validator.example:8002")] }

/-- A resolver that fails on every host except one known static
destination. -/
def resolverC10 : Resolver := fun s =>
  if s = "10.0.0.1:8001" then some [{ ip := "10.0.0.1", port := 8001 }] else none

/-- A file configuration listing one resolvable and one unresolvable
destination. -/
def cfgC10 : CommonConfig :=
  { src_bind_addr := "0.0.0.0"
    src_bind_port := 20000
    dest_ip_ports := ["10.0.0.1:8001", "badhost.example:8001"]
    endpoint_discovery_url := none
    discovered_endpoints_port := none
    metrics_report_interval_ms := 15000
    debug_trace_shred := false
    public_ip := none
    num_threads := none }

/-! ## Helper lemmas -/

/-- A successful startup performs exactly the ordered step list. -/
theorem mainStartupSteps_ok (sub : ProxySubcommands) (steps : List StartupStep)
    (h : mainStartupSteps sub = Except.ok steps) : steps = startedSteps sub := by
  unfold mainStartupSteps at h
  split at h
  · cases h
  · injection h with h'
    exact h'.symm

/-- Splitting on commas always yields at least one group. -/
theorem splitOnComma_ne_nil (cs : List Char) : splitOnComma cs ≠ [] := by
  induction cs with
  | nil => simp [splitOnComma]
  | cons c rest ih =>
    unfold splitOnComma
    by_cases hc : c = ','
    · simp [hc]
    · rw [if_neg hc]
      cases hr : splitOnComma rest with
      | nil => exact absurd hr ih
      | cons g gs => simp

/-- If any listed destination fails to resolve, the whole collect fails. -/
theorem resolveAll_error_of_bad (resolver : Resolver) (dests : List String)
    (d : String) (hd : d ∈ dests)
    (hbad : (resolve_hostname_port resolver d).isOk = false) :
    (resolveAll resolver dests).isOk = false := by
  induction dests with
  | nil => cases hd
  | cons x xs ih =>
    unfold resolveAll
    cases hd with
    | head =>
      cases hx : resolve_hostname_port resolver d with
      | error e => rfl
      | ok p => rw [hx] at hbad; simp [Except.isOk, Except.toBool] at hbad
    | tail b hmem =>
      cases hx : resolve_hostname_port resolver x with
      | error e => rfl
      | ok p =>
        have hxs := ih hmem
        cases hr : resolveAll resolver xs with
        | error e2 => rfl
        | ok ps => rw [hr] at hxs; simp [Except.isOk, Except.toBool] at hxs

/-- When exactly one of the discovery url and the discovery port is
supplied, the first validation check fails. -/
theorem validate_error_of_mismatch (c : CommonArgs)
    (h : c.endpoint_discovery_url.isSome ≠ c.discovered_endpoints_port.isSome) :
    validateArgsChecks c = Except.error StartupError.invalidDiscoveryArgs := by
  unfold validateArgsChecks
  cases hu : c.endpoint_discovery_url <;> cases hp : c.discovered_endpoints_port <;>
    rw [hu, hp] at h <;> simp at h ⊢

/-- When the discovery url and the discovery port are supplied together or
omitted together, the first validation check passes. -/
theorem validate_ne_invalid_of_match (c : CommonArgs)
    (h : c.endpoint_discovery_url.isSome = c.discovered_endpoints_port.isSome) :
    validateArgsChecks c ≠ Except.error StartupError.invalidDiscoveryArgs := by
  unfold validateArgsChecks
  cases hu : c.endpoint_discovery_url <;> cases hp : c.discovered_endpoints_port <;>
    rw [hu, hp] at h <;> simp at h ⊢
  split <;> simp

/-! ## Claim theorems -/

/-- C1: the heartbeat loop never learns the kernel-assigned listening
port. start_heartbeat builds the advertised address from the configured
src_bind_port verbatim (main.rs line 371), so a configuration requesting
an ephemeral port with src_bind_port zero makes the heartbeat advertise
the literal port zero, contradicting the claim that the kernel-assigned
port is advertised; for every configuration the advertised port equals
the configured value. -/
theorem c1_port_zero_advertised :
    argsC1.common_args.src_bind_port = 0
    ∧ (start_heartbeat "198.51.100.1" argsC1).advertised.port = 0
    ∧ ∀ (a : ShredstreamArgs) (fetch : String),
        (start_heartbeat fetch a).advertised.port = a.common_args.src_bind_port :=
  ⟨rfl, rfl, fun _ _ => rfl⟩

/-- C8: when auth_url is absent the heartbeat loop is started with the
auth endpoint equal to block_engine_url, and when it is present the
supplied value is used unchanged (main.rs line 364). -/
theorem c8_auth_url_fallback (a : ShredstreamArgs) (fetch : String) :
    (a.auth_url = none →
      (start_heartbeat fetch a).auth_url = a.block_engine_url)
    ∧ (∀ u, a.auth_url = some u → (start_heartbeat fetch a).auth_url = u) := by
  constructor
  · intro h
    simp [start_heartbeat, h]
  · intro u h
    simp [start_heartbeat, h]

/-- Witness for c8_auth_url_fallback at a concrete configuration. -/
theorem c8_auth_url_fallback_witness :
    (start_heartbeat "198.51.100.1" argsC8).auth_url = argsC8.block_engine_url :=
  (c8_auth_url_fallback argsC8 "198.51.100.1").1 rfl

/-- C9: on a successful startup the installed destination snapshot is
exactly the resolved socket addresses of the static dest_ip_ports input in
input order with the hostname strings stripped (main.rs lines 262-267),
and this installation step occurs strictly before the forwarder threads
are started (line 279). -/
theorem c9_initial_snapshot (sub : ProxySubcommands) (steps : List StartupStep)
    (h : mainStartupSteps sub = Except.ok steps) :
    ∃ (i j : Nat), i < j
      ∧ steps[i]? = some (StartupStep.installDestinationSnapshot
          ((commonArgsOf sub).dest_ip_ports.map Prod.fst))
      ∧ steps[j]? = some StartupStep.startForwarderThreads := by
  have hs := mainStartupSteps_ok sub steps h
  subst hs
  cases sub with
  | Shredstream a => exact ⟨3, 5, by omega, rfl, rfl⟩
  | ForwardOnly c => exact ⟨2, 4, by omega, rfl, rfl⟩

/-- Witness for c9_initial_snapshot at a concrete configuration with two
static destinations. -/
theorem c9_initial_snapshot_witness :
    ∃ (i j : Nat), i < j
      ∧ (startedSteps subC9)[i]? = some (StartupStep.installDestinationSnapshot
          ((commonArgsOf subC9).dest_ip_ports.map Prod.fst))
      ∧ (startedSteps subC9)[j]? = some StartupStep.startForwarderThreads :=
  c9_initial_snapshot subC9 (startedSteps subC9) rfl

/-- C10: resolve_hostname_port returns the first address produced by name
resolution paired with the original input string, and errors when
resolution fails or yields no address; consequently the conversion of a
configuration listing several destinations fails entirely as soon as one
destination fails to resolve (main.rs lines 152-161 and 447-451). -/
theorem c10_resolve_all_or_nothing (resolver : Resolver) (cfg : CommonConfig)
    (bad : String) (hmem : bad ∈ cfg.dest_ip_ports)
    (hbad : (resolve_hostname_port resolver bad).isOk = false) :
    (∀ s a rest, resolver s = some (a :: rest) →
        resolve_hostname_port resolver s = Except.ok (a, s))
    ∧ (∀ s, resolver s = none →
        (resolve_hostname_port resolver s).isOk = false)
    ∧ (∀ s, resolver s = some [] →
        (resolve_hostname_port resolver s).isOk = false)
    ∧ (commonConfigTryFrom resolver cfg).isOk = false := by
  refine ⟨?_, ?_, ?_, ?_⟩
  · intro s a rest h
    unfold resolve_hostname_port
    rw [h]
  · intro s h
    unfold resolve_hostname_port
    rw [h]
    rfl
  · intro s h
    unfold resolve_hostname_port
    rw [h]
    rfl
  · have hall := resolveAll_error_of_bad resolver cfg.dest_ip_ports bad hmem hbad
    unfold commonConfigTryFrom
    cases hr : resolveAll resolver cfg.dest_ip_ports with
    | error e => rfl
    | ok l => rw [hr] at hall; simp [Except.isOk, Except.toBool] at hall

/-- Witness for c10_resolve_all_or_nothing: a configuration with one
resolvable and one unresolvable destination fails to convert. -/
theorem c10_resolve_all_or_nothing_witness :
    (commonConfigTryFrom resolverC10 cfgC10).isOk = false :=
  (c10_resolve_all_or_nothing resolverC10 cfgC10 "badhost.example:8001"
    (by decide) (by decide)).2.2.2

/-- C4: supplying exactly one of endpoint_discovery_url and
discovered_endpoints_port makes startup fail before any worker thread
starts, with the non-zero panic exit code; supplying both or neither
passes this check (main.rs lines 223-227). -/
theorem c4_discovery_pairing (sub : ProxySubcommands) :
    ((commonArgsOf sub).endpoint_discovery_url.isSome
        ≠ (commonArgsOf sub).discovered_endpoints_port.isSome →
      mainStartupSteps sub = Except.error StartupError.invalidDiscoveryArgs
        ∧ panicExitCode ≠ 0)
    ∧ ((commonArgsOf sub).endpoint_discovery_url.isSome
        = (commonArgsOf sub).discovered_endpoints_port.isSome →
      mainStartupSteps sub ≠ Except.error StartupError.invalidDiscoveryArgs) := by
  constructor
  · intro h
    refine ⟨?_, by decide⟩
    unfold mainStartupSteps
    rw [validate_error_of_mismatch (commonArgsOf sub) h]
  · intro h hbad
    apply validate_ne_invalid_of_match (commonArgsOf sub) h
    unfold mainStartupSteps at hbad
    split at hbad
    · rename_i e heq
      have he : e = StartupError.invalidDiscoveryArgs := Except.error.inj hbad
      subst he
      exact heq
    · exact Except.noConfusion hbad

/-- Witness for c4_discovery_pairing: a discovery url without a discovery
port is rejected at startup. -/
theorem c4_discovery_pairing_witness :
    mainStartupSteps subC4 = Except.error StartupError.invalidDiscoveryArgs
      ∧ panicExitCode ≠ 0 :=
  (c4_discovery_pairing subC4).1 (by decide)

/-- C5: an empty static destination list with no discovery configuration
makes startup fail before any worker thread starts, with the non-zero
panic exit code; at least one static destination, or a complete discovery
configuration, passes this check (main.rs lines 228-233). -/
theorem c5_destination_presence (sub : ProxySubcommands) :
    ((commonArgsOf sub).dest_ip_ports = []
        ∧ (commonArgsOf sub).endpoint_discovery_url = none
        ∧ (commonArgsOf sub).discovered_endpoints_port = none →
      mainStartupSteps sub = Except.error StartupError.noDestinations
        ∧ panicExitCode ≠ 0)
    ∧ ((commonArgsOf sub).dest_ip_ports ≠ []
        ∨ ((commonArgsOf sub).endpoint_discovery_url.isSome
            ∧ (commonArgsOf sub).discovered_endpoints_port.isSome) →
      mainStartupSteps sub ≠ Except.error StartupError.noDestinations) := by
  constructor
  · rintro ⟨hd, hu, hp⟩
    refine ⟨?_, by decide⟩
    unfold mainStartupSteps validateArgsChecks
    rw [hd, hu, hp]
    simp
  · intro h hbad
    unfold mainStartupSteps at hbad
    split at hbad
    · rename_i e heq
      have he : e = StartupError.noDestinations := Except.error.inj hbad
      subst he
      revert heq
      unfold validateArgsChecks
      cases h with
      | inl hne =>
        cases hd : (commonArgsOf sub).dest_ip_ports with
        | nil => exact absurd hd hne
        | cons p ps =>
          intro hc
          split at hc
          · exact StartupError.noConfusion (Except.error.inj hc)
          · split at hc
            · rename_i h2
              simp at h2
            · exact Except.noConfusion hc
      | inr hsome =>
        obtain ⟨hu, hp⟩ := hsome
        cases hu2 : (commonArgsOf sub).endpoint_discovery_url with
        | none => rw [hu2] at hu; simp at hu
        | some u =>
          cases hp2 : (commonArgsOf sub).discovered_endpoints_port with
          | none => rw [hp2] at hp; simp at hp
          | some p2 => simp
    · exact Except.noConfusion hbad

/-- Witness for c5_destination_presence: no static destinations and no
discovery service is rejected at startup. -/
theorem c5_destination_presence_witness :
    mainStartupSteps subC5 = Except.error StartupError.noDestinations
      ∧ panicExitCode ≠ 0 :=
  (c5_destination_presence subC5).1 ⟨rfl, rfl, rfl⟩

/-- C2 counterexample: the claim fails on the config-file path. A file
configuration whose desired_regions list is empty but which has one
resolvable static destination converts successfully, passes both
validation checks, and startup proceeds to start the worker threads, so
startup is not fatal (main.rs lines 426-438 perform no region check). -/
theorem c2_region_list_counterexample :
    shredstreamConfigTryFrom resolverC2 configC2 = Except.ok argsC2
    ∧ argsC2.desired_regions = []
    ∧ mainStartupSteps (ProxySubcommands.Shredstream argsC2)
        = Except.ok (startedSteps (ProxySubcommands.Shredstream argsC2))
    ∧ StartupStep.startForwarderThreads
        ∈ startedSteps (ProxySubcommands.Shredstream argsC2) := by
  refine ⟨rfl, rfl, rfl, by decide⟩

/-- C2 amended: on the command line an empty region list is
unrepresentable, because clap rejects a missing desired-regions argument
and splitting a supplied raw value on commas always yields at least one
element (main.rs line 78); but the config-file conversion copies
desired_regions through without any emptiness check, so an empty list
loaded from a file is accepted and startup proceeds. -/
theorem c2_regions_validation :
    (cliParseDesiredRegions none).isOk = false
    ∧ (∀ raw l, cliParseDesiredRegions (some raw) = Except.ok l → l ≠ [])
    ∧ (∀ (resolver : Resolver) (cfg : ShredstreamConfig) (a : ShredstreamArgs),
        shredstreamConfigTryFrom resolver cfg = Except.ok a →
        a.desired_regions = cfg.desired_regions) := by
  refine ⟨rfl, ?_, ?_⟩
  · intro raw l h
    injection h with h'
    rw [← h']
    exact splitOnComma_ne_nil raw
  · intro resolver cfg a h
    unfold shredstreamConfigTryFrom at h
    split at h
    · cases h
    · injection h with h'
      rw [← h']

/-- Witness for c2_regions_validation at a concrete raw value. -/
theorem c2_regions_validation_witness :
    cliParseDesiredRegions (some ['n', 'y']) = Except.ok [['n', 'y']]
    ∧ [['n', 'y']] ≠ ([] : List (List Char)) :=
  ⟨rfl, c2_regions_validation.2.1 ['n', 'y'] [['n', 'y']] rfl⟩

/-- C3 counterexample: a forward-only configuration with one static
destination and no discovery endpoint is valid and starts its workers, yet
the destination refresher thread is not started, refuting the claim that
the refresher runs for every valid configuration (main.rs lines 313-323
start it only when the discovery service is configured). -/
theorem c3_refresher_counterexample :
    mainStartupSteps subC3 = Except.ok (startedSteps subC3)
    ∧ StartupStep.startDestinationRefresher ∉ startedSteps subC3
    ∧ StartupStep.startForwarderThreads ∈ startedSteps subC3
    ∧ StartupStep.startAccessoryThread ∈ startedSteps subC3 :=
  ⟨rfl, by decide, by decide, by decide⟩

/-- C3 amended: every successful startup starts the forwarder threads, the
stats report thread and the metrics accessory thread; the heartbeat loop
is started exactly in shredstream mode; and the destination refresher is
started exactly when the discovery service is configured, hence not for
configurations with only static destinations. -/
theorem c3_thread_wiring (sub : ProxySubcommands) (steps : List StartupStep)
    (h : mainStartupSteps sub = Except.ok steps) :
    StartupStep.startForwarderThreads ∈ steps
    ∧ StartupStep.startReportMetricsThread ∈ steps
    ∧ StartupStep.startAccessoryThread ∈ steps
    ∧ (StartupStep.startHeartbeat ∈ steps ↔ isShredstreamMode sub = true)
    ∧ (StartupStep.startDestinationRefresher ∈ steps
        ↔ useDiscoveryService (commonArgsOf sub) = true) := by
  have hs := mainStartupSteps_ok sub steps h
  subst hs
  cases sub with
  | Shredstream a =>
    cases hd : useDiscoveryService a.common_args <;>
      simp [startedSteps, commonArgsOf, isShredstreamMode, hd]
  | ForwardOnly c =>
    cases hd : useDiscoveryService c <;>
      simp [startedSteps, commonArgsOf, isShredstreamMode, hd]

/-- Witness for c3_thread_wiring at a concrete shredstream configuration
with a complete discovery setup. -/
theorem c3_thread_wiring_witness :
    StartupStep.startForwarderThreads ∈ startedSteps subC3w
    ∧ (StartupStep.startDestinationRefresher ∈ startedSteps subC3w
        ↔ useDiscoveryService (commonArgsOf subC3w) = true) :=
  ⟨(c3_thread_wiring subC3w (startedSteps subC3w) rfl).1,
   (c3_thread_wiring subC3w (startedSteps subC3w) rfl).2.2.2.2⟩

/-- C6: per received signal, the handler body stores true into the shared
exit flag strictly before any shutdown message is sent, and it sends 256
shutdown messages, which is at least the number of worker threads of any
configuration, so every receiver blocked on the shutdown channel can
consume one (main.rs lines 183-192). -/
theorem c6_shutdown_notifier :
    (∀ i : Nat, signalHandlerTrace[i]? = some RuntimeAction.sendShutdownMsg →
        ∃ j : Nat, j < i
          ∧ signalHandlerTrace[j]? = some (RuntimeAction.setFlag true))
    ∧ signalHandlerTrace.count RuntimeAction.sendShutdownMsg = 256
    ∧ (∀ (sub : ProxySubcommands) (cpuCount : Nat),
        totalWorkerThreads sub cpuCount
          ≤ signalHandlerTrace.count RuntimeAction.sendShutdownMsg) := by
  have hcount : signalHandlerTrace.count RuntimeAction.sendShutdownMsg = 256 := by
    decide
  refine ⟨?_, hcount, ?_⟩
  · intro i hi
    cases i with
    | zero => simp [signalHandlerTrace] at hi
    | succ n => exact ⟨0, Nat.succ_pos n, rfl⟩
  · intro sub cpuCount
    rw [hcount]
    have h8 : numForwarderHandles cpuCount (commonArgsOf sub).num_threads ≤ 8 := by
      unfold numForwarderHandles
      have h1 := Nat.min_le_left (min cpuCount 4)
        ((commonArgsOf sub).num_threads.getD (min cpuCount 4))
      have h2 := Nat.min_le_right cpuCount 4
      omega
    unfold totalWorkerThreads
    cases isShredstreamMode sub <;> cases useDiscoveryService (commonArgsOf sub) <;>
      simp only [cond] <;> omega

/-- Witness for c6_shutdown_notifier: the send at position one of the
handler trace is preceded by the flag store at position zero. -/
theorem c6_shutdown_notifier_witness :
    ∃ j : Nat, j < 1 ∧ signalHandlerTrace[j]? = some (RuntimeAction.setFlag true) :=
  c6_shutdown_notifier.1 1 (by decide)

/-- C7 counterexample: the panic hook publishes exactly one shutdown
message (main.rs line 243), which is fewer than the worker-thread count of
an ordinary configuration, so the hook does not publish enough messages
for every blocked receiver to wake via the channel. -/
theorem c7_panic_hook_counterexample :
    panicHookTrace.count RuntimeAction.sendShutdownMsg = 1
    ∧ 1 < totalWorkerThreads subC7 4 := by decide

/-- C7 amended: the panic hook stores true into the shared exit flag
strictly before publishing, publishes exactly one shutdown message, and
only afterwards invokes the previously installed hook so the process dies
with the non-zero panic exit code; the remaining workers observe shutdown
through the shared flag rather than through channel messages. -/
theorem c7_panic_hook_amended :
    panicHookTrace[0]? = some (RuntimeAction.setFlag true)
    ∧ panicHookTrace[1]? = some RuntimeAction.sendShutdownMsg
    ∧ panicHookTrace.count RuntimeAction.sendShutdownMsg = 1
    ∧ panicHookTrace.getLast? = some RuntimeAction.invokePriorPanicHook
    ∧ panicExitCode ≠ 0 := by decide
